import Mathlib

/-!
Verification development for the column-selection transformers and the
group/value splitting helper of the scikit-lego preprocessing code
(`sklego/meta/_grouped_utils.py` and
`sklego/preprocessing/pandastransformers.py`).

The Python code is shallowly embedded: tables become explicit lists of
named, typed columns; numpy arrays become lists of rows together with an
array dtype; raised exceptions become `Except` errors carrying the
exception class and message; attribute mutation performed by `fit` becomes
explicit state passing on record types whose optional fields model
attributes that may not have been assigned yet.
-/

/-- A scalar cell value as it appears in a pandas column or numpy array.
`num` is a finite numeric value, `nan` the floating NaN, `inf` an infinite
value, `str` a string, `null` the Python None, and `cplx` a complex number. -/
inductive Val where
  | num (q : Int)
  | nan
  | inf
  | str (s : String)
  | null
  | cplx (re im : Int)
deriving DecidableEq, Repr

/-- pandas `isnull` is true on None and on NaN. -/
def Val.isNull : Val → Bool
  | .nan => true
  | .null => true
  | _ => false

/-- NaN detection, used by the finiteness check of the array validator. -/
def Val.isNaN : Val → Bool
  | .nan => true
  | _ => false

/-- Infinity detection, used by the finiteness check of the array validator. -/
def Val.isInf : Val → Bool
  | .inf => true
  | _ => false

/-- The dtypes that occur in the modelled tables and arrays. -/
inductive Dtype where
  | int64
  | float64
  | complex128
  | obj
deriving DecidableEq, Repr

/-- pandas `select_dtypes` with `include="number"` keeps the numeric kinds,
complex included. -/
def Dtype.isNumber : Dtype → Bool
  | .int64 => true
  | .float64 => true
  | .complex128 => true
  | .obj => false

/-- numpy common-dtype promotion for a list of column dtypes, as applied when
a pandas DataFrame is converted to a single numpy array: any non-numeric
column forces object dtype, otherwise complex wins over float over int. -/
def npResultType (dts : List Dtype) : Dtype :=
  if dts.any (fun d => d = Dtype.obj) then .obj
  else if dts.any (fun d => d = Dtype.complex128) then .complex128
  else if dts.any (fun d => d = Dtype.float64) then .float64
  else .int64

/-- One named pandas column: a name, a dtype, and the cell values. -/
structure Col where
  name : String
  dtype : Dtype
  vals : List Val
deriving DecidableEq, Repr

/-- A pandas DataFrame: a row index plus an ordered list of named columns. -/
structure Frame where
  index : List Int
  cols : List Col
deriving DecidableEq, Repr

/-- The column labels of a frame, in order. -/
def Frame.colNames (df : Frame) : List String := df.cols.map Col.name

/-- The row count of a frame is the length of its index. -/
def Frame.nrows (df : Frame) : Nat := df.index.length

/-- The per-column dtype record, the model of the `.dtypes` attribute. -/
def Frame.dtypeRecord (df : Frame) : List (String × Dtype) :=
  df.cols.map (fun c => (c.name, c.dtype))

/-- A frame is well formed when every column has one value per index entry. -/
def Frame.wf (df : Frame) : Prop :=
  ∀ c ∈ df.cols, c.vals.length = df.index.length

/-- Conversion of a frame to a list of rows, the model of `.values`. -/
def Frame.toRows (df : Frame) : List (List Val) :=
  (List.range df.nrows).map (fun i => df.cols.map (fun c => c.vals.getD i .null))

/-- `reset_index(drop=True)`: replace the row index by the fresh contiguous
0-based range, keeping the columns. -/
def Frame.resetIndex (df : Frame) : Frame :=
  { index := (List.range df.nrows).map Int.ofNat, cols := df.cols }

/-- The exception classes raised by the modelled code paths. -/
inductive PyErr where
  | valueError (msg : String)
  | keyError (msg : String)
  | typeError (msg : String)
  | attributeError (msg : String)
  | notFittedError (msg : String)
deriving DecidableEq, Repr

deriving instance DecidableEq for Except

/-- pandas `X.loc[:, groups]`: select the listed column labels, in the listed
order, keeping the row index; a missing label is a KeyError. -/
def Frame.locCols (df : Frame) (groups : List String) : Except PyErr Frame :=
  if groups.all (fun g => df.colNames.contains g) then
    .ok { index := df.index,
          cols := groups.filterMap (fun g => df.cols.find? (fun c => c.name == g)) }
  else .error (.keyError "not in index")

/-- pandas `X.drop(columns=groups)`: remove every column whose label occurs in
the list, keeping the original order; a missing label is a KeyError. -/
def Frame.dropCols (df : Frame) (groups : List String) : Except PyErr Frame :=
  if groups.all (fun g => df.colNames.contains g) then
    .ok { index := df.index,
          cols := df.cols.filter (fun c => !(groups.contains c.name)) }
  else .error (.keyError "not found in axis")

/-- An input to `_split_groups_and_values`: a labeled pandas DataFrame, a raw
positional numpy array (dtype plus rows), or a scipy sparse matrix. -/
inductive PyObj where
  | frame (df : Frame)
  | arr (dt : Dtype) (rows : List (List Val))
  | sparse (dt : Dtype) (rows : List (List Val))
deriving DecidableEq, Repr

/-- `scipy.sparse.issparse`. -/
def PyObj.isSparse : PyObj → Bool
  | .sparse _ _ => true
  | _ => false

/-- The `.dtype` attribute, which arrays and sparse matrices expose and a
pandas DataFrame does not (a DataFrame only has `.dtypes`). -/
def PyObj.dtypeAttr : PyObj → Option Dtype
  | .frame _ => none
  | .arr dt _ => some dt
  | .sparse dt _ => some dt

/-- The dtype of the numpy array obtained from the input: the declared dtype
for arrays, and the promoted common dtype for frames. -/
def pyArrDtype : PyObj → Dtype
  | .frame df => npResultType (df.cols.map Col.dtype)
  | .arr dt _ => dt
  | .sparse dt _ => dt

/-- The rows of the numpy array obtained from the input. -/
def pyRows : PyObj → List (List Val)
  | .frame df => df.toRows
  | .arr _ r => r
  | .sparse _ r => r

/-- Row count of the input. -/
def pyNrows : PyObj → Nat
  | .frame df => df.nrows
  | .arr _ r => r.length
  | .sparse _ r => r.length

/-- The options of `sklearn.utils.check_array` that the modelled call sites
use: the finiteness switch and the minimum feature and sample counts. -/
structure CheckOpts where
  forceAllFinite : Bool
  ensureMinFeatures : Nat
  ensureMinSamples : Nat
deriving DecidableEq, Repr

/-- The defaults of `check_array`. -/
def defaultCheckOpts : CheckOpts :=
  { forceAllFinite := true, ensureMinFeatures := 1, ensureMinSamples := 1 }

/-- `sklearn.utils.validation._ensure_no_complex_data` on a converted numpy
array: reject a complex array dtype. -/
def complexDataMsg : String := "Complex data not supported"

/-- Message of the minimum-sample check of `check_array`. -/
def tooFewSamplesMsg : String := "Found array with too few samples"

/-- Message of the minimum-feature check of `check_array`. -/
def tooFewFeaturesMsg : String := "Found array with too few features"

/-- Message of the finiteness check of `check_array`. -/
def nonFiniteMsg : String := "Input contains NaN, infinity or a value too large"

/-- `sklearn.utils.check_array` on a dense numpy array of the given dtype:
complex rejection, then the finiteness check (on object arrays only NaN is
detected, through elementwise self-inequality), then the minimum sample and
feature counts. -/
def checkArrayRaw (opts : CheckOpts) (dt : Dtype) (rows : List (List Val)) :
    Except PyErr Unit :=
  if dt = Dtype.complex128 then .error (.valueError complexDataMsg)
  else if opts.forceAllFinite &&
      (if dt = Dtype.obj then rows.any (fun r => r.any Val.isNaN)
       else rows.any (fun r => r.any (fun v => v.isNaN || v.isInf))) then
    .error (.valueError nonFiniteMsg)
  else if rows.length < opts.ensureMinSamples then .error (.valueError tooFewSamplesMsg)
  else if (rows.headD []).length < opts.ensureMinFeatures then
    .error (.valueError tooFewFeaturesMsg)
  else .ok ()

/-- `check_array` applied to a raw input object: sparse input is refused
because the call sites leave `accept_sparse` at its default, a frame is first
converted to one numpy array of the promoted dtype. -/
def checkArrayObj (opts : CheckOpts) (X : PyObj) : Except PyErr Unit :=
  match X with
  | .sparse _ _ =>
      .error (.typeError "A sparse matrix was passed, but dense data is required")
  | _ => checkArrayRaw opts (pyArrDtype X) (pyRows X)

/-- `_ensure_no_complex_data` applied to the raw input: it only fires when the
object exposes a `.dtype` attribute of complex kind, so a DataFrame always
passes this particular call. -/
def ensureNoComplexData (X : PyObj) : Except PyErr Unit :=
  match X.dtypeAttr with
  | some Dtype.complex128 => .error (.valueError complexDataMsg)
  | _ => .ok ()

/-- `_data_format_checks` from `sklego/meta/_grouped_utils.py`: the complex
check, then the sparse rejection naming the calling estimator. -/
def dataFormatChecks (X : PyObj) (name : String) : Except PyErr Unit :=
  match ensureNoComplexData X with
  | .error e => .error e
  | .ok _ =>
      if X.isSparse then
        .error (.valueError ("The estimator " ++ name ++ " does not work on sparse matrices"))
      else .ok ()

/-- The group specification: column labels for a labeled frame, integer
positions for a raw array. -/
inductive Groups where
  | byLabel (ls : List String)
  | byPos (ps : List Nat)
deriving DecidableEq, Repr

/-- Message of the uniform partition-failure error of
`_split_groups_and_values`. -/
def couldNotDropMsg : String := "Could not drop groups from columns of X"

/-- Column `p` of a row-major array. -/
def arrCol (rows : List (List Val)) (p : Nat) : List Val :=
  rows.map (fun r => r.getD p .null)

/-- `pd.DataFrame(X[:, groups])` for a positional array: the selected columns
become a frame with fresh 0-based integer row index and positional column
labels, every column keeping the array dtype. -/
def arrGroupFrame (dt : Dtype) (rows : List (List Val)) (ps : List Nat) : Frame :=
  { index := (List.range rows.length).map Int.ofNat,
    cols := (List.range ps.length).map
      (fun j => { name := toString j, dtype := dt, vals := arrCol rows (ps.getD j 0) }) }

/-- `np.delete(X, positions, axis=1)`: remove the listed column positions from
every row. -/
def npDeleteCols (rows : List (List Val)) (ps : List Nat) : List (List Val) :=
  rows.map (fun r => (r.enum.filter (fun x => !(ps.contains x.1))).map Prod.snd)

/-- The try-block of `_split_groups_and_values` (lines 16 to 26): label-based
selection and drop for a frame, positional slicing and delete for an array;
any lookup failure is converted to the uniform ValueError. The result is the
grouping frame, the dtype of the value array, and the value rows. -/
def partitionGV (X : PyObj) (groups : Groups) :
    Except PyErr (Frame × Dtype × List (List Val)) :=
  match X, groups with
  | .frame df, .byLabel ls =>
      match df.locCols ls, df.dropCols ls with
      | .ok g, .ok v => .ok (g, npResultType (v.cols.map Col.dtype), v.toRows)
      | _, _ => .error (.valueError couldNotDropMsg)
  | .frame _, .byPos _ => .error (.valueError couldNotDropMsg)
  | .arr dt rows, .byPos ps =>
      if ps.all (fun p => p < (rows.headD []).length) then
        .ok (arrGroupFrame dt rows ps, dt, npDeleteCols rows ps)
      else .error (.valueError couldNotDropMsg)
  | .arr _ _, .byLabel _ => .error (.valueError couldNotDropMsg)
  | .sparse _ _, _ => .error (.valueError couldNotDropMsg)

/-- The numeric-column part of `_check_grouping_columns` (lines 45 to 48): run
`check_array` with the forwarded options on the numeric grouping columns, if
any are present. -/
def numericGroupCheck (kw : CheckOpts) (Xg : Frame) : Except PyErr Unit :=
  let numCols := Xg.cols.filter (fun c => c.dtype.isNumber)
  if numCols.length ≠ 0 then
    checkArrayRaw kw (npResultType (numCols.map Col.dtype))
      (Frame.toRows { index := Xg.index, cols := numCols })
  else .ok ()

/-- Message raised when a non-numeric grouping column holds a missing value. -/
def groupNaNMsg : String := "X has NaN values"

/-- `_check_grouping_columns` from `sklego/meta/_grouped_utils.py`: numeric
grouping columns go through `check_array` with the forwarded options, the
remaining columns are only scanned for missing values, and the surviving
grouping frame gets a fresh 0-based row index. -/
def checkGroupingColumns (kw : CheckOpts) (Xg : Frame) : Except PyErr Frame :=
  match numericGroupCheck kw Xg with
  | .error e => .error e
  | .ok _ =>
      if (Xg.cols.filter (fun c => !c.dtype.isNumber)).any
          (fun c => c.vals.any Val.isNull) then
        .error (.valueError groupNaNMsg)
      else .ok Xg.resetIndex

/-- The unconditional validation prefix of `_split_groups_and_values` (lines
13 and 14): the data-format checks followed by the shape-only `check_array`
call, which runs with finiteness checking disabled and the minimum feature
count set to `min_value_cols`. -/
def initialValidation (X : PyObj) (name : String) (minValueCols : Nat) :
    Except PyErr Unit :=
  match dataFormatChecks X name with
  | .error e => .error e
  | .ok _ =>
      checkArrayObj
        { forceAllFinite := false, ensureMinFeatures := minValueCols,
          ensureMinSamples := 1 } X

/-- `_split_groups_and_values` from `sklego/meta/_grouped_utils.py`: format
checks, the shape-only array validation of the whole input, the group/value
partition, the grouping-column checks, and, only when `check_X` is set, the
`check_array` validation of the value matrix with the forwarded options. -/
def splitGroupsAndValues (X : PyObj) (groups : Groups) (name : String)
    (minValueCols : Nat) (checkX : Bool) (kw : CheckOpts) :
    Except PyErr (Frame × List (List Val)) :=
  match dataFormatChecks X name with
  | .error e => .error e
  | .ok _ =>
    match checkArrayObj
        { forceAllFinite := false, ensureMinFeatures := minValueCols,
          ensureMinSamples := 1 } X with
    | .error e => .error e
    | .ok _ =>
      match partitionGV X groups with
      | .error e => .error e
      | .ok (xg, vdt, xv) =>
        match checkGroupingColumns kw xg with
        | .error e => .error e
        | .ok xg2 =>
          if checkX then
            match checkArrayRaw kw vdt xv with
            | .error e => .error e
            | .ok _ => .ok (xg2, xv)
          else .ok (xg2, xv)

/-- `sklego.common.as_list` on a list specification. Modelled from the spec:
the helper itself lives in `sklego/common.py`, outside the provided sources;
the spec says fit normalizes the column specification to a list, which on an
already-list specification is the identity. -/
def asList (cs : List String) : List String := cs

/-- Shared `_check_column_names` of `ColumnSelector` and `ColumnDropper`: the
set difference of the requested names against the frame columns must be
empty, otherwise a KeyError listing the missing names. -/
def checkColumnNames (cs : List String) (X : Frame) : Except PyErr Unit :=
  if cs.all (fun c => X.colNames.contains c) then .ok ()
  else .error (.keyError "column(s) not in DataFrame")

/-- narwhals `select` on a native pandas frame: the listed columns, in the
listed order, original row index kept; a missing column is an error. -/
def Frame.selectCols (df : Frame) (cs : List String) : Except PyErr Frame :=
  if cs.all (fun c => df.colNames.contains c) then
    .ok { index := df.index,
          cols := cs.filterMap (fun c => df.cols.find? (fun col => col.name == c)) }
  else .error (.keyError "column not found in select")

/-- narwhals `drop` (strict) on a native pandas frame: remove the listed
columns; a missing column is an error. -/
def Frame.nwDrop (df : Frame) (cs : List String) : Except PyErr Frame :=
  if cs.all (fun c => df.colNames.contains c) then
    .ok { index := df.index,
          cols := df.cols.filter (fun c => !(cs.contains c.name)) }
  else .error (.keyError "column not found in drop")

/-- The attribute state of a `ColumnDropper` instance: the constructor
parameter plus the two attributes that `fit` assigns, absent before any
successful assignment. -/
structure DropperState where
  columns : List String
  columns_ : Option (List String)
  feature_names_ : Option (List String)
deriving DecidableEq, Repr

/-- A freshly constructed `ColumnDropper(columns)`. -/
def dropperInit (cs : List String) : DropperState :=
  { columns := cs, columns_ := none, feature_names_ := none }

/-- Message of the empty-drop failure of `ColumnDropper`. -/
def dropEmptyMsg : String := "Dropping would result in an empty output DataFrame"

/-- `ColumnDropper.fit`: assign `columns_`, check the column names, assign
`feature_names_` as the complement, then fail if that complement is empty.
The assignments happen before the checks that can raise, so the returned
state records them even on failure. -/
def dropperFit (s : DropperState) (X : Frame) : DropperState × Except PyErr Unit :=
  let s1 := { s with columns_ := some (asList s.columns) }
  match checkColumnNames (asList s.columns) X with
  | .error e => (s1, .error e)
  | .ok _ =>
    let fn := X.colNames.filter (fun c => !((asList s.columns).contains c))
    let s2 := { s1 with feature_names_ := some fn }
    if fn.length = 0 then (s2, .error (.valueError dropEmptyMsg))
    else (s2, .ok ())

/-- Message of the scikit-learn fittedness check on `ColumnDropper`. -/
def dropperNotFittedMsg : String := "This ColumnDropper instance is not fitted yet"

/-- `ColumnDropper.transform`: the fittedness check on `feature_names_` runs
before any other work; then the stored `columns_` are dropped when non-empty,
otherwise the input is returned unchanged. -/
def dropperTransform (s : DropperState) (X : Frame) : Except PyErr Frame :=
  match s.feature_names_ with
  | none => .error (.notFittedError dropperNotFittedMsg)
  | some _ =>
    match s.columns_ with
    | none => .error (.attributeError "ColumnDropper object has no attribute columns_")
    | some cs => if cs.isEmpty then .ok X else X.nwDrop cs

/-- The attribute state of a `ColumnSelector` instance. -/
structure SelectorState where
  columns : List String
  columns_ : Option (List String)
deriving DecidableEq, Repr

/-- A freshly constructed `ColumnSelector(columns)`. -/
def selectorInit (cs : List String) : SelectorState :=
  { columns := cs, columns_ := none }

/-- Message of the empty-selection failure of `ColumnSelector`. -/
def selectEmptyMsg : String :=
  "Expected columns to be at least of length 1, found length of 0 instead"

/-- `ColumnSelector.fit`: assign `columns_`, check the column names, then
fail if the selection list is empty. The assignment happens before the
checks, so the returned state records it even on failure. -/
def selectorFit (s : SelectorState) (X : Frame) : SelectorState × Except PyErr Unit :=
  let s1 := { s with columns_ := some (asList s.columns) }
  match checkColumnNames (asList s.columns) X with
  | .error e => (s1, .error e)
  | .ok _ =>
    if (asList s.columns).length = 0 then (s1, .error (.valueError selectEmptyMsg))
    else (s1, .ok ())

/-- Message of the attribute failure when an unfitted `ColumnSelector`
dereferences `columns_`. -/
def selectorAttrMsg : String := "ColumnSelector object has no attribute columns_"

/-- `ColumnSelector.transform`: no fittedness check at all; when the
constructor parameter is non-empty the stored `columns_` attribute is
dereferenced (absent on an unfitted instance) and selected, otherwise the
input is returned unchanged. -/
def selectorTransform (s : SelectorState) (X : Frame) : Except PyErr Frame :=
  if s.columns.isEmpty then .ok X
  else
    match s.columns_ with
    | none => .error (.attributeError selectorAttrMsg)
    | some cs => X.selectCols cs

/-- An input handed to `PandasTypeSelector`: either a pandas DataFrame or a
raw numpy array, which exposes no `.dtypes` attribute. -/
inductive TIn where
  | pdf (df : Frame)
  | npArr (dt : Dtype) (rows : List (List Val))
deriving DecidableEq, Repr

/-- Whether a dtype passes the include/exclude specification of
`select_dtypes`. -/
def dtypeKeep (inc exc : Option (List Dtype)) (d : Dtype) : Bool :=
  (match inc with
   | none => true
   | some l => l.contains d) &&
  (match exc with
   | none => true
   | some l => !(l.contains d))

/-- Whether the include and the exclude specification share a dtype. -/
def dtypeOverlap (inc exc : Option (List Dtype)) : Bool :=
  match inc, exc with
  | some li, some le => li.any (fun d => le.contains d)
  | _, _ => false

/-- pandas `DataFrame.select_dtypes`: at least one of include and exclude
must be given and they must not overlap; the kept columns are those whose
dtype passes the specification, in original order. -/
def selectDtypes (inc exc : Option (List Dtype)) (df : Frame) : Except PyErr Frame :=
  if inc.isNone && exc.isNone then
    .error (.valueError "at least one of include or exclude must be nonempty")
  else if dtypeOverlap inc exc then
    .error (.valueError "include and exclude overlap")
  else .ok { index := df.index, cols := df.cols.filter (fun c => dtypeKeep inc exc c.dtype) }

/-- The attribute state of a `PandasTypeSelector` instance: the constructor
parameters plus the two attributes assigned by `fit`. -/
structure TSState where
  include_ : Option (List Dtype)
  exclude_ : Option (List Dtype)
  X_dtypes_ : Option (List (String × Dtype))
  feature_names_ : Option (List String)
deriving DecidableEq, Repr

/-- A freshly constructed `PandasTypeSelector(include, exclude)`. -/
def tsInit (inc exc : Option (List Dtype)) : TSState :=
  { include_ := inc, exclude_ := exc, X_dtypes_ := none, feature_names_ := none }

/-- Message of `PandasTypeSelector._check_X_for_type`. -/
def notDataFrameMsg : String := "Provided variable X is not of type pandas.DataFrame"

/-- Message of the empty-selection failure of `PandasTypeSelector.fit`. -/
def emptyTypesMsg : String := "Provided type(s) results in empty dataframe"

/-- `PandasTypeSelector.fit`: the representation check first, then the
assignment of `X_dtypes_`, then the type-based selection and the assignment
of `feature_names_`, then the empty-selection failure. The assignments
precede the checks that can raise, so a failed fit still records them. -/
def tsFit (s : TSState) (X : TIn) : TSState × Except PyErr Unit :=
  match X with
  | .npArr _ _ => (s, .error (.typeError notDataFrameMsg))
  | .pdf df =>
    let s1 := { s with X_dtypes_ := some df.dtypeRecord }
    match selectDtypes s.include_ s.exclude_ df with
    | .error e => (s1, .error e)
    | .ok sel =>
      let s2 := { s1 with feature_names_ := some sel.colNames }
      if sel.colNames.length = 0 then (s2, .error (.valueError emptyTypesMsg))
      else (s2, .ok ())

/-- Message of the scikit-learn fittedness check on `PandasTypeSelector`. -/
def tsNotFittedMsg : String := "This PandasTypeSelector instance is not fitted yet"

/-- Message of the guarded dtype comparison of `PandasTypeSelector.transform`:
both a label mismatch (a pandas comparison error) and a value mismatch (the
explicit raise) are caught by the surrounding handler and re-raised with this
message. -/
def dtypeMismatchMsg : String := "Columns were not equal during fit and transform"

/-- Message of the attribute failure when the dtype comparison reads the
`.dtypes` attribute of an input that has none, such as a numpy array. -/
def noDtypesAttrMsg : String := "numpy.ndarray object has no attribute dtypes"

/-- Reading the `.dtypes` attribute of a transform input: a DataFrame yields
its dtype record, an array raises AttributeError. -/
def dtypesOf : TIn → Except PyErr (List (String × Dtype))
  | .pdf df => .ok df.dtypeRecord
  | .npArr _ _ => .error (.attributeError noDtypesAttrMsg)

/-- `PandasTypeSelector.transform`: the fittedness check on both fitted
attributes, then the dtype comparison against the fit-time record (reading
the `.dtypes` attribute of the input, and failing whenever the record
differs in labels or values), then the representation check, then the
type-based selection recomputed on the input. -/
def tsTransform (s : TSState) (X : TIn) : Except PyErr Frame :=
  match s.X_dtypes_, s.feature_names_ with
  | some fitD, some _ =>
    (match dtypesOf X with
     | .error e => .error e
     | .ok cur =>
       if fitD ≠ cur then .error (.valueError dtypeMismatchMsg)
       else
         match X with
         | .npArr _ _ => .error (.typeError notDataFrameMsg)
         | .pdf df => selectDtypes s.include_ s.exclude_ df)
  | _, _ => .error (.notFittedError tsNotFittedMsg)

theorem contains_eq_true_iff {α : Type} [BEq α] [LawfulBEq α] (l : List α) (x : α) :
    l.contains x = true ↔ x ∈ l := List.elem_iff

theorem find?_name_eq (g : String) :
    ∀ (cols : List Col), g ∈ cols.map Col.name →
      ∃ c, cols.find? (fun c => c.name == g) = some c ∧ c.name = g ∧ c ∈ cols := by
  intro cols
  induction cols with
  | nil => simp
  | cons a t ih =>
    intro h
    by_cases hn : a.name = g
    · refine ⟨a, ?_, hn, List.mem_cons_self a t⟩
      simp [List.find?_cons, hn]
    · have hmem : g ∈ t.map Col.name := by
        simp only [List.map_cons, List.mem_cons] at h
        rcases h with h1 | h2
        · exact absurd h1.symm hn
        · exact h2
      obtain ⟨c, hf, hcn, hcm⟩ := ih hmem
      refine ⟨c, ?_, hcn, List.mem_cons_of_mem a hcm⟩
      have : (a.name == g) = false := by simpa using hn
      simp [List.find?_cons, this, hf]

theorem filterMap_find?_names (cols : List Col) :
    ∀ (cs : List String), (∀ g ∈ cs, g ∈ cols.map Col.name) →
      (cs.filterMap (fun g => cols.find? (fun c => c.name == g))).map Col.name = cs ∧
      ∀ c ∈ cs.filterMap (fun g => cols.find? (fun c => c.name == g)), c ∈ cols := by
  intro cs
  induction cs with
  | nil => simp
  | cons g t ih =>
    intro h
    obtain ⟨c, hf, hcn, hcm⟩ := find?_name_eq g cols (h g (List.mem_cons_self g t))
    have hrest := ih (fun x hx => h x (List.mem_cons_of_mem g hx))
    rw [List.filterMap_cons, hf]
    constructor
    · simp [hcn, hrest.1]
    · intro x hx
      rcases List.mem_cons.mp hx with rfl | hx2
      · exact hcm
      · exact hrest.2 x hx2

theorem filter_not_contains_length {α : Type} [BEq α] [LawfulBEq α] :
    ∀ (l ps : List α), l.Nodup → ps.Nodup → (∀ p ∈ ps, p ∈ l) →
      (l.filter (fun x => !(ps.contains x))).length = l.length - ps.length := by
  intro l
  induction l with
  | nil =>
    intro ps _ _ hsub
    have hps : ps = [] := by
      cases ps with
      | nil => rfl
      | cons p t => exact absurd (hsub p (List.mem_cons_self p t)) (List.not_mem_nil p)
    simp [hps]
  | cons a t ih =>
    intro ps hl hps hsub
    have hal : a ∉ t := (List.nodup_cons.mp hl).1
    have htl : t.Nodup := (List.nodup_cons.mp hl).2
    by_cases hmem : a ∈ ps
    · have hcont : ps.contains a = true := (contains_eq_true_iff ps a).mpr hmem
      have hstep : List.filter (fun x => !(ps.contains x)) (a :: t)
          = List.filter (fun x => !(ps.contains x)) t := by
        rw [List.filter_cons, hcont]
        simp
      rw [hstep]
      have heq : t.filter (fun x => !(ps.contains x))
          = t.filter (fun x => !((ps.erase a).contains x)) := by
        apply List.filter_congr
        intro x hx
        have hxa : x ≠ a := fun hxa => hal (hxa ▸ hx)
        have hiff : x ∈ ps.erase a ↔ x ∈ ps := by
          rw [hps.mem_erase_iff]
          exact and_iff_right hxa
        rw [Bool.eq_iff_iff]
        simp [contains_eq_true_iff, hiff]
      have hsub2 : ∀ p ∈ ps.erase a, p ∈ t := by
        intro p hp
        obtain ⟨hpa, hpin⟩ := hps.mem_erase_iff.mp hp
        rcases List.mem_cons.mp (hsub p hpin) with rfl | h2
        · exact absurd rfl hpa
        · exact h2
      rw [heq, ih (ps.erase a) htl (hps.erase a) hsub2, List.length_erase_of_mem hmem]
      have hpos : 1 ≤ ps.length := List.length_pos.mpr (by
        rintro rfl
        exact List.not_mem_nil a hmem)
      simp only [List.length_cons]
      omega
    · have hcont : ps.contains a = false := by
        rw [Bool.eq_false_iff]
        intro hc
        exact hmem ((contains_eq_true_iff ps a).mp hc)
      have hstep : List.filter (fun x => !(ps.contains x)) (a :: t)
          = a :: List.filter (fun x => !(ps.contains x)) t := by
        rw [List.filter_cons, hcont]
        simp
      rw [hstep]
      have hsub2 : ∀ p ∈ ps, p ∈ t := by
        intro p hp
        rcases List.mem_cons.mp (hsub p hp) with rfl | h2
        · exact absurd hp hmem
        · exact h2
      have hle : ps.length ≤ t.length :=
        (List.subperm_of_subset hps hsub2).length_le
      rw [List.length_cons, List.length_cons, ih ps htl hps hsub2]
      omega

theorem cols_filter_name_length (cols : List Col) (ls : List String) :
    (cols.filter (fun c => !(ls.contains c.name))).length
      = ((cols.map Col.name).filter (fun n => !(ls.contains n))).length := by
  rw [List.filter_map, List.length_map]
  rfl

theorem names_filter_length (cols : List Col) (ls : List String)
    (hnd : (cols.map Col.name).Nodup) (hls : ls.Nodup)
    (hsub : ∀ l ∈ ls, l ∈ cols.map Col.name) :
    (cols.filter (fun c => !(ls.contains c.name))).length = cols.length - ls.length := by
  rw [cols_filter_name_length,
    filter_not_contains_length (cols.map Col.name) ls hnd hls hsub, List.length_map]

theorem enum_filter_length (ps : List Nat) (r : List Val) (hps : ps.Nodup)
    (hlt : ∀ p ∈ ps, p < r.length) :
    ((r.enum.filter (fun x => !(ps.contains x.1))).map Prod.snd).length
      = r.length - ps.length := by
  rw [List.length_map]
  have h0 : r.enum.filter (fun x => !(ps.contains x.1))
      = r.enum.filter ((fun i => !(ps.contains i)) ∘ Prod.fst) := rfl
  have h1 : (r.enum.filter ((fun i => !(ps.contains i)) ∘ Prod.fst)).length
      = ((r.enum.map Prod.fst).filter (fun i => !(ps.contains i))).length := by
    rw [List.filter_map, List.length_map]
  rw [h0, h1, List.enum_map_fst]
  have := filter_not_contains_length (List.range r.length) ps (List.nodup_range r.length)
    hps (fun p hp => List.mem_range.mpr (hlt p hp))
  rwa [List.length_range] at this

/-- Claim C10: ColumnDropper.transform and PandasTypeSelector.transform run
the fittedness check before any other work, so on a never-fitted instance
they fail with the not-fitted error; ColumnSelector.transform has no
fittedness check at all, so on a never-fitted instance it either succeeds
(empty constructor parameter) or fails only by dereferencing the absent
fitted attribute. -/
theorem c10_fitted_check_asymmetry :
    (∀ (cs : List String) (X : Frame),
      dropperTransform (dropperInit cs) X = .error (.notFittedError dropperNotFittedMsg)) ∧
    (∀ (inc exc : Option (List Dtype)) (X : TIn),
      tsTransform (tsInit inc exc) X = .error (.notFittedError tsNotFittedMsg)) ∧
    (∀ (cs : List String) (X : Frame),
      selectorTransform (selectorInit cs) X = .ok X ∨
      selectorTransform (selectorInit cs) X = .error (.attributeError selectorAttrMsg)) := by
  refine ⟨fun cs X => rfl, fun inc exc X => rfl, fun cs X => ?_⟩
  unfold selectorTransform selectorInit
  by_cases h : cs.isEmpty
  · left
    simp [h]
  · right
    simp [h]

/-- Claim C8 (code bug evaluation): on a fitted PandasTypeSelector, transform
applied to a numpy array fails with an AttributeError from reading the
missing dtypes attribute, because the dtype comparison runs before the
representation check; the documentation of transform promises a TypeError
for a non-DataFrame input. -/
theorem c8_transform_nonframe_attribute_error :
    (tsFit (tsInit (some [Dtype.int64]) none)
      (.pdf { index := [0],
              cols := [{ name := "a", dtype := Dtype.int64, vals := [Val.num 1] }] })).2
      = .ok () ∧
    tsTransform
      (tsFit (tsInit (some [Dtype.int64]) none)
        (.pdf { index := [0],
                cols := [{ name := "a", dtype := Dtype.int64, vals := [Val.num 1] }] })).1
      (.npArr Dtype.int64 [[Val.num 1]])
      = .error (.attributeError noDtypesAttrMsg) := by
  constructor
  · decide
  · decide

/-- Claim C9 (counterexample): a ColumnDropper fitted once successfully and
then refitted on a table whose columns its specification covers raises the
empty-result error, yet the recorded fitted state after the failed call
differs from the state before it: feature names were overwritten before the
raise. -/
theorem c9_fit_state_counterexample :
    (dropperFit (dropperFit (dropperInit ["a"])
        { index := [0],
          cols := [{ name := "a", dtype := Dtype.int64, vals := [Val.num 1] },
                   { name := "b", dtype := Dtype.int64, vals := [Val.num 2] }] }).1
        { index := [0],
          cols := [{ name := "a", dtype := Dtype.int64, vals := [Val.num 3] }] }).2
      = .error (.valueError dropEmptyMsg) ∧
    (dropperFit (dropperFit (dropperInit ["a"])
        { index := [0],
          cols := [{ name := "a", dtype := Dtype.int64, vals := [Val.num 1] },
                   { name := "b", dtype := Dtype.int64, vals := [Val.num 2] }] }).1
        { index := [0],
          cols := [{ name := "a", dtype := Dtype.int64, vals := [Val.num 3] }] }).1
      ≠ (dropperFit (dropperInit ["a"])
        { index := [0],
          cols := [{ name := "a", dtype := Dtype.int64, vals := [Val.num 1] },
                   { name := "b", dtype := Dtype.int64, vals := [Val.num 2] }] }).1 := by
  constructor
  · decide
  · decide

/-- Claim C9 (amended): failures of fit are synchronous and return no result,
but fit is not atomic on the recorded fitted state: every fit call, failed or
not, first records the normalized column specification (ColumnSelector and
ColumnDropper) or the dtype record of a DataFrame input (PandasTypeSelector)
before any validation can raise. -/
theorem c9_fit_records_before_failure :
    (∀ (s : DropperState) (X : Frame),
      ((dropperFit s X).1).columns_ = some (asList s.columns)) ∧
    (∀ (s : SelectorState) (X : Frame),
      ((selectorFit s X).1).columns_ = some (asList s.columns)) ∧
    (∀ (s : TSState) (df : Frame),
      ((tsFit s (.pdf df)).1).X_dtypes_ = some df.dtypeRecord) := by
  refine ⟨fun s X => ?_, fun s X => ?_, fun s df => ?_⟩
  · cases hc : checkColumnNames (asList s.columns) X with
    | error e => simp [dropperFit, hc]
    | ok u =>
      simp only [dropperFit, hc]
      split <;> rfl
  · cases hc : checkColumnNames (asList s.columns) X with
    | error e => simp [selectorFit, hc]
    | ok u =>
      simp only [selectorFit, hc]
      split <;> rfl
  · cases hsel : selectDtypes s.include_ s.exclude_ df with
    | error e => simp [tsFit, hsel]
    | ok sel =>
      simp only [tsFit, hsel]
      split <;> rfl

/-- Claim C1 (counterexample): with two total columns, one grouping column
and a minimum value-column count of two, only one non-group column remains,
yet the split succeeds: the initial validation bounds the total column count
of the input, not the non-group count. -/
theorem c1_min_features_counterexample :
    (({ index := [0],
        cols := [{ name := "g", dtype := Dtype.float64, vals := [Val.num 1] },
                 { name := "v", dtype := Dtype.float64, vals := [Val.num 2] }] } : Frame).cols.filter
        (fun c => !((["g"]).contains c.name))).length < 2 ∧
    splitGroupsAndValues
      (.frame { index := [0],
                cols := [{ name := "g", dtype := Dtype.float64, vals := [Val.num 1] },
                         { name := "v", dtype := Dtype.float64, vals := [Val.num 2] }] })
      (.byLabel ["g"]) "" 2 true defaultCheckOpts
      = .ok ({ index := [0],
               cols := [{ name := "g", dtype := Dtype.float64, vals := [Val.num 1] }] },
             [[Val.num 2]]) := by
  constructor
  · decide
  · decide

/-- Claim C5 (counterexample): a DataFrame holding a complex column next to a
non-numeric column promotes to object dtype during the unconditional array
validation, so with value validation disabled the split succeeds and the
complex values flow into the returned value matrix instead of raising the
data-format error. -/
theorem c5_unconditional_checks_counterexample :
    (({ index := [0],
        cols := [{ name := "g", dtype := Dtype.obj, vals := [Val.str "a"] },
                 { name := "v", dtype := Dtype.complex128, vals := [Val.cplx 1 2] }] } : Frame).cols.any
        (fun c => c.dtype = Dtype.complex128)) = true ∧
    splitGroupsAndValues
      (.frame { index := [0],
                cols := [{ name := "g", dtype := Dtype.obj, vals := [Val.str "a"] },
                         { name := "v", dtype := Dtype.complex128, vals := [Val.cplx 1 2] }] })
      (.byLabel ["g"]) "est" 1 false defaultCheckOpts
      = .ok ({ index := [0],
               cols := [{ name := "g", dtype := Dtype.obj, vals := [Val.str "a"] }] },
             [[Val.cplx 1 2]]) := by
  constructor
  · decide
  · decide

theorem toRows_length (df : Frame) : df.toRows.length = df.nrows := by
  unfold Frame.toRows
  rw [List.length_map, List.length_range]

theorem toRows_row_length (df : Frame) : ∀ r ∈ df.toRows, r.length = df.cols.length := by
  intro r hr
  unfold Frame.toRows at hr
  obtain ⟨i, hi, rfl⟩ := List.mem_map.mp hr
  rw [List.length_map]

theorem toRows_headD_length (df : Frame) (h : 1 ≤ df.nrows) :
    (df.toRows.headD []).length = df.cols.length := by
  cases hrows : df.toRows with
  | nil =>
    have := toRows_length df
    rw [hrows] at this
    simp at this
    omega
  | cons r t =>
    have hmem : r ∈ df.toRows := by
      rw [hrows]
      exact List.mem_cons_self r t
    simpa using toRows_row_length df r hmem

theorem dataFormatChecks_frame (df : Frame) (nm : String) :
    dataFormatChecks (.frame df) nm = .ok () := rfl

theorem ensureNoComplexData_arr (dt : Dtype) (rows : List (List Val))
    (h : dt ≠ Dtype.complex128) : ensureNoComplexData (.arr dt rows) = .ok () := by
  cases dt with
  | complex128 => exact absurd rfl h
  | int64 => rfl
  | float64 => rfl
  | obj => rfl

theorem ensureNoComplexData_sparse (dt : Dtype) (rows : List (List Val))
    (h : dt ≠ Dtype.complex128) : ensureNoComplexData (.sparse dt rows) = .ok () := by
  cases dt with
  | complex128 => exact absurd rfl h
  | int64 => rfl
  | float64 => rfl
  | obj => rfl

theorem dataFormatChecks_arr (dt : Dtype) (rows : List (List Val)) (nm : String)
    (h : dt ≠ Dtype.complex128) : dataFormatChecks (.arr dt rows) nm = .ok () := by
  unfold dataFormatChecks
  rw [ensureNoComplexData_arr dt rows h]
  rfl

theorem checkArrayRaw_shape_only (mvc : Nat) (dt : Dtype) (rows : List (List Val))
    (h2 : dt ≠ Dtype.complex128) (h1 : 1 ≤ rows.length) :
    checkArrayRaw { forceAllFinite := false, ensureMinFeatures := mvc, ensureMinSamples := 1 }
        dt rows
      = if (rows.headD []).length < mvc then .error (.valueError tooFewFeaturesMsg)
        else .ok () := by
  unfold checkArrayRaw
  rw [if_neg h2]
  simp only [Bool.false_and, Bool.false_eq_true, if_false]
  rw [if_neg (by omega : ¬ rows.length < 1)]

/-- Claim C1 (amended): the unconditional shape validation at the head of the
split bounds the total column count of the input, group columns included: it
succeeds exactly when the input has at least one row, a non-complex array
dtype and at least min_value_cols total columns, with no condition on the
cell values (NaN and infinity pass), and when the total column count is
below min_value_cols the split fails with the too-few-features error. The
non-group column count is not what is checked. -/
theorem c1_min_features_is_total_columns (nm : String) (mvc : Nat) (cX : Bool)
    (kw : CheckOpts) :
    (∀ df : Frame, 1 ≤ df.nrows →
      npResultType (df.cols.map Col.dtype) ≠ Dtype.complex128 →
      (initialValidation (.frame df) nm mvc = .ok () ↔ mvc ≤ df.cols.length)) ∧
    (∀ (df : Frame) (G : Groups), 1 ≤ df.nrows →
      npResultType (df.cols.map Col.dtype) ≠ Dtype.complex128 →
      df.cols.length < mvc →
      splitGroupsAndValues (.frame df) G nm mvc cX kw
        = .error (.valueError tooFewFeaturesMsg)) ∧
    (∀ (dt : Dtype) (rows : List (List Val)) (G : Groups), 1 ≤ rows.length →
      dt ≠ Dtype.complex128 → (rows.headD []).length < mvc →
      splitGroupsAndValues (.arr dt rows) G nm mvc cX kw
        = .error (.valueError tooFewFeaturesMsg)) := by
  refine ⟨fun df h1 h2 => ?_, fun df G h1 h2 h3 => ?_, fun dt rows G h1 h2 h3 => ?_⟩
  · show checkArrayRaw _ (pyArrDtype (.frame df)) (pyRows (.frame df)) = .ok () ↔ _
    have hrows : 1 ≤ (pyRows (.frame df)).length := by
      show 1 ≤ df.toRows.length
      rw [toRows_length]
      exact h1
    rw [checkArrayRaw_shape_only mvc (pyArrDtype (.frame df)) (pyRows (.frame df)) h2 hrows]
    have hhead : ((pyRows (.frame df)).headD []).length = df.cols.length :=
      toRows_headD_length df h1
    rw [hhead]
    by_cases hlt : df.cols.length < mvc
    · rw [if_pos hlt]
      constructor
      · intro h
        exact absurd h (by simp)
      · intro h
        omega
    · rw [if_neg hlt]
      constructor
      · intro _
        omega
      · intro _
        rfl
  · have hca : checkArrayObj
        { forceAllFinite := false, ensureMinFeatures := mvc, ensureMinSamples := 1 }
        (.frame df) = .error (.valueError tooFewFeaturesMsg) := by
      show checkArrayRaw _ (pyArrDtype (.frame df)) (pyRows (.frame df)) = _
      have hrows : 1 ≤ (pyRows (.frame df)).length := by
        show 1 ≤ df.toRows.length
        rw [toRows_length]
        exact h1
      rw [checkArrayRaw_shape_only mvc (pyArrDtype (.frame df)) (pyRows (.frame df)) h2 hrows]
      have hhead : ((pyRows (.frame df)).headD []).length = df.cols.length :=
        toRows_headD_length df h1
      rw [hhead]
      exact if_pos h3
    simp [splitGroupsAndValues, dataFormatChecks_frame, hca]
  · have hca : checkArrayObj
        { forceAllFinite := false, ensureMinFeatures := mvc, ensureMinSamples := 1 }
        (.arr dt rows) = .error (.valueError tooFewFeaturesMsg) := by
      show checkArrayRaw _ dt rows = _
      rw [checkArrayRaw_shape_only mvc dt rows h2 h1]
      exact if_pos h3
    simp [splitGroupsAndValues, dataFormatChecks_arr dt rows nm h2, hca]

/-- Claim C1 (witness): a two-column table holding a NaN and an infinity
passes the initial validation at min_value_cols two, while at three total
columns demanded the split fails with the too-few-features error, as does a
one-column raw array at two. -/
theorem c1_min_features_witness :
    initialValidation
      (.frame { index := [9],
                cols := [{ name := "a", dtype := Dtype.float64, vals := [Val.nan] },
                         { name := "b", dtype := Dtype.float64, vals := [Val.inf] }] })
      "m" 2 = .ok () ∧
    splitGroupsAndValues
      (.frame { index := [9],
                cols := [{ name := "a", dtype := Dtype.float64, vals := [Val.nan] },
                         { name := "b", dtype := Dtype.float64, vals := [Val.inf] }] })
      (.byLabel ["a"]) "m" 3 true defaultCheckOpts
      = .error (.valueError tooFewFeaturesMsg) ∧
    splitGroupsAndValues (.arr Dtype.float64 [[Val.num 1]]) (.byPos [0]) "m" 2 false
      defaultCheckOpts = .error (.valueError tooFewFeaturesMsg) :=
  ⟨((c1_min_features_is_total_columns "m" 2 true defaultCheckOpts).1 _
      (by decide) (by decide)).mpr (by decide),
   (c1_min_features_is_total_columns "m" 3 true defaultCheckOpts).2.1 _
      (.byLabel ["a"]) (by decide) (by decide) (by decide),
   (c1_min_features_is_total_columns "m" 2 false defaultCheckOpts).2.2
      Dtype.float64 [[Val.num 1]] (.byPos [0]) (by decide) (by decide) (by decide)⟩

/-- Claim C5 (amended): the complex and sparse rejections run before any
partitioning and do not depend on the value-validation flag or the forwarded
options: an input whose array dtype is complex fails with the complex-data
error, and a sparse input of non-complex dtype fails with the sparse error
naming the caller. A labeled table can hold complex values under a
non-complex promoted dtype, so containing complex values does not by itself
trigger the rejection. -/
theorem c5_unconditional_checks_amended (X : PyObj) (G : Groups) (nm : String)
    (mvc : Nat) (cX : Bool) (kw : CheckOpts) :
    (pyArrDtype X = Dtype.complex128 →
      splitGroupsAndValues X G nm mvc cX kw = .error (.valueError complexDataMsg)) ∧
    (X.isSparse = true → pyArrDtype X ≠ Dtype.complex128 →
      splitGroupsAndValues X G nm mvc cX kw
        = .error (.valueError ("The estimator " ++ nm ++ " does not work on sparse matrices"))) := by
  constructor
  · intro h
    cases X with
    | frame df =>
      have hca : checkArrayObj
          { forceAllFinite := false, ensureMinFeatures := mvc, ensureMinSamples := 1 }
          (.frame df) = .error (.valueError complexDataMsg) := by
        show checkArrayRaw _ (pyArrDtype (.frame df)) (pyRows (.frame df)) = _
        unfold checkArrayRaw
        exact if_pos h
      simp [splitGroupsAndValues, dataFormatChecks_frame, hca]
    | arr dt rows =>
      have hdt : dt = Dtype.complex128 := h
      subst hdt
      rfl
    | sparse dt rows =>
      have hdt : dt = Dtype.complex128 := h
      subst hdt
      rfl
  · intro hs h2
    cases X with
    | frame df => exact absurd hs (by simp [PyObj.isSparse])
    | arr dt rows => exact absurd hs (by simp [PyObj.isSparse])
    | sparse dt rows =>
      have hdf : dataFormatChecks (.sparse dt rows) nm
          = .error (.valueError ("The estimator " ++ nm ++ " does not work on sparse matrices")) := by
        unfold dataFormatChecks
        rw [ensureNoComplexData_sparse dt rows h2]
        rfl
      simp [splitGroupsAndValues, hdf]

/-- Claim C5 (witness): a complex raw array is rejected with the complex-data
error even with value validation enabled, and a non-complex sparse input is
rejected with the sparse error naming the caller even with value validation
disabled. -/
theorem c5_unconditional_checks_witness :
    splitGroupsAndValues (.arr Dtype.complex128 [[Val.cplx 0 1]]) (.byPos [0]) "m" 1 true
      defaultCheckOpts = .error (.valueError complexDataMsg) ∧
    splitGroupsAndValues (.sparse Dtype.float64 [[Val.num 1]]) (.byPos [0]) "m" 1 false
      defaultCheckOpts
      = .error (.valueError ("The estimator " ++ "m" ++ " does not work on sparse matrices")) :=
  ⟨(c5_unconditional_checks_amended (.arr Dtype.complex128 [[Val.cplx 0 1]]) (.byPos [0])
      "m" 1 true defaultCheckOpts).1 rfl,
   (c5_unconditional_checks_amended (.sparse Dtype.float64 [[Val.num 1]]) (.byPos [0])
      "m" 1 false defaultCheckOpts).2 rfl (by decide)⟩

theorem all_contains_eq_true (cs names : List String) (h : ∀ c ∈ cs, c ∈ names) :
    cs.all (fun c => names.contains c) = true := by
  rw [List.all_eq_true]
  intro x hx
  exact (contains_eq_true_iff names x).mpr (h x hx)

theorem checkColumnNames_ok (cs : List String) (X : Frame)
    (h : ∀ c ∈ cs, c ∈ X.colNames) : checkColumnNames cs X = .ok () := by
  unfold checkColumnNames
  rw [if_pos (all_contains_eq_true cs X.colNames h)]

theorem selectCols_spec (T : Frame) (C : List String) (h : ∀ c ∈ C, c ∈ T.colNames) :
    T.selectCols C
      = .ok { index := T.index,
              cols := C.filterMap (fun g => T.cols.find? (fun col => col.name == g)) } := by
  unfold Frame.selectCols
  rw [if_pos (all_contains_eq_true C T.colNames h)]

theorem nwDrop_spec (T : Frame) (C : List String) (h : ∀ c ∈ C, c ∈ T.colNames) :
    T.nwDrop C
      = .ok { index := T.index,
              cols := T.cols.filter (fun c => !(C.contains c.name)) } := by
  unfold Frame.nwDrop
  rw [if_pos (all_contains_eq_true C T.colNames h)]

theorem cols_filter_names_eq (cols : List Col) (ls : List String) :
    (cols.filter (fun c => !(ls.contains c.name))).map Col.name
      = (cols.map Col.name).filter (fun n => !(ls.contains n)) := by
  rw [List.filter_map]
  rfl

theorem isEmpty_eq_false_of_ne {α : Type} (l : List α) (h : l ≠ []) :
    l.isEmpty = false := by
  cases l with
  | nil => exact absurd rfl h
  | cons a t => rfl

/-- Claim C2: on a table T and a non-empty duplicate-free subset C of its
columns for which the fitted projections are non-empty, ColumnSelector fit
then transform returns exactly the columns C in the given order and
ColumnDropper fit then transform returns exactly the columns of T outside C
in the original order, each output column being an untouched column of T. -/
theorem c2_selector_dropper_projection (T : Frame) (C : List String)
    (hsub : ∀ c ∈ C, c ∈ T.colNames) (hCne : C ≠ [])
    (hrem : T.colNames.filter (fun c => !(C.contains c)) ≠ []) :
    (selectorFit (selectorInit C) T).2 = .ok () ∧
    (dropperFit (dropperInit C) T).2 = .ok () ∧
    (∃ Ts, selectorTransform (selectorFit (selectorInit C) T).1 T = .ok Ts ∧
      Ts.colNames = C ∧ Ts.index = T.index ∧ ∀ c ∈ Ts.cols, c ∈ T.cols) ∧
    (∃ Td, dropperTransform (dropperFit (dropperInit C) T).1 T = .ok Td ∧
      Td.colNames = T.colNames.filter (fun c => !(C.contains c)) ∧
      Td.index = T.index ∧ ∀ c ∈ Td.cols, c ∈ T.cols) := by
  have hcn : checkColumnNames (asList C) T = .ok () := checkColumnNames_ok C T hsub
  have hlenC : ¬ ((asList C).length = 0) := by
    simpa [asList, List.length_eq_zero] using hCne
  have hsel : selectorFit (selectorInit C) T
      = ({ columns := C, columns_ := some C }, .ok ()) := by
    simp only [selectorFit, selectorInit, hcn]
    rw [if_neg hlenC]
    rfl
  have hfn : T.colNames.filter (fun c => !((asList C).contains c))
      = T.colNames.filter (fun c => !(C.contains c)) := rfl
  have hlenF : ¬ ((T.colNames.filter (fun c => !((asList C).contains c))).length = 0) := by
    rw [hfn]
    simpa [List.length_eq_zero] using hrem
  have hdrop : dropperFit (dropperInit C) T
      = ({ columns := C, columns_ := some C,
           feature_names_ := some (T.colNames.filter (fun c => !(C.contains c))) },
         .ok ()) := by
    simp only [dropperFit, dropperInit, hcn]
    rw [if_neg hlenF]
    rfl
  have hCempty : C.isEmpty = false := isEmpty_eq_false_of_ne C hCne
  have hnames := filterMap_find?_names T.cols C hsub
  refine ⟨by rw [hsel], by rw [hdrop], ?_, ?_⟩
  · refine ⟨{ index := T.index,
              cols := C.filterMap (fun g => T.cols.find? (fun col => col.name == g)) },
            ?_, ?_, rfl, hnames.2⟩
    · rw [hsel]
      show selectorTransform { columns := C, columns_ := some C } T = _
      unfold selectorTransform
      show (if C.isEmpty = true then Except.ok T else T.selectCols C) = _
      rw [hCempty, if_neg (show ¬ (false = true) by simp)]
      exact selectCols_spec T C hsub
    · exact hnames.1
  · refine ⟨{ index := T.index, cols := T.cols.filter (fun c => !(C.contains c.name)) },
            ?_, ?_, rfl, fun c hc => (List.mem_filter.mp hc).1⟩
    · rw [hdrop]
      show dropperTransform
        { columns := C, columns_ := some C,
          feature_names_ := some (T.colNames.filter (fun c => !(C.contains c))) } T = _
      unfold dropperTransform
      show (if C.isEmpty = true then Except.ok T else T.nwDrop C) = _
      rw [hCempty, if_neg (show ¬ (false = true) by simp)]
      exact nwDrop_spec T C hsub
    · exact cols_filter_names_eq T.cols C

/-- Claim C2 (witness): on a concrete two-column table, selecting column a
keeps exactly column a and dropping column a keeps exactly column b, values
untouched. -/
theorem c2_projection_witness :
    (selectorFit (selectorInit ["a"])
      { index := [0],
        cols := [{ name := "a", dtype := Dtype.obj, vals := [Val.str "x"] },
                 { name := "b", dtype := Dtype.int64, vals := [Val.num 1] }] }).2 = .ok () ∧
    (dropperFit (dropperInit ["a"])
      { index := [0],
        cols := [{ name := "a", dtype := Dtype.obj, vals := [Val.str "x"] },
                 { name := "b", dtype := Dtype.int64, vals := [Val.num 1] }] }).2 = .ok () ∧
    (∃ Ts, selectorTransform (selectorFit (selectorInit ["a"])
        { index := [0],
          cols := [{ name := "a", dtype := Dtype.obj, vals := [Val.str "x"] },
                   { name := "b", dtype := Dtype.int64, vals := [Val.num 1] }] }).1
        { index := [0],
          cols := [{ name := "a", dtype := Dtype.obj, vals := [Val.str "x"] },
                   { name := "b", dtype := Dtype.int64, vals := [Val.num 1] }] } = .ok Ts ∧
      Ts.colNames = ["a"] ∧ Ts.index = [0] ∧
      ∀ c ∈ Ts.cols, c ∈ [({ name := "a", dtype := Dtype.obj, vals := [Val.str "x"] } : Col),
                          { name := "b", dtype := Dtype.int64, vals := [Val.num 1] }]) ∧
    (∃ Td, dropperTransform (dropperFit (dropperInit ["a"])
        { index := [0],
          cols := [{ name := "a", dtype := Dtype.obj, vals := [Val.str "x"] },
                   { name := "b", dtype := Dtype.int64, vals := [Val.num 1] }] }).1
        { index := [0],
          cols := [{ name := "a", dtype := Dtype.obj, vals := [Val.str "x"] },
                   { name := "b", dtype := Dtype.int64, vals := [Val.num 1] }] } = .ok Td ∧
      Td.colNames = ["b"] ∧
      Td.index = [0] ∧
      ∀ c ∈ Td.cols, c ∈ [({ name := "a", dtype := Dtype.obj, vals := [Val.str "x"] } : Col),
                          { name := "b", dtype := Dtype.int64, vals := [Val.num 1] }]) :=
  c2_selector_dropper_projection
    { index := [0],
      cols := [{ name := "a", dtype := Dtype.obj, vals := [Val.str "x"] },
               { name := "b", dtype := Dtype.int64, vals := [Val.num 1] }] }
    ["a"] (by decide) (by decide) (by decide)

theorem checkGroupingColumns_nan (kw : CheckOpts) (Xg : Frame)
    (hnum : numericGroupCheck kw Xg = .ok ())
    (hnull : (Xg.cols.filter (fun c => !c.dtype.isNumber)).any
        (fun c => c.vals.any Val.isNull) = true) :
    checkGroupingColumns kw Xg = .error (.valueError groupNaNMsg) := by
  unfold checkGroupingColumns
  rw [hnum]
  rw [if_pos hnull]

theorem checkGroupingColumns_ok (kw : CheckOpts) (Xg : Frame)
    (hnum : numericGroupCheck kw Xg = .ok ())
    (hnull : (Xg.cols.filter (fun c => !c.dtype.isNumber)).any
        (fun c => c.vals.any Val.isNull) = false) :
    checkGroupingColumns kw Xg = .ok Xg.resetIndex := by
  unfold checkGroupingColumns
  rw [hnum]
  rw [if_neg (by simp [hnull])]

/-- Claim C4: once the input reaches the grouping-column checks and the
numeric grouping columns pass the forwarded array validation, a missing
value in any non-numeric grouping column makes the split fail with the
dedicated missing-value error; with no missing value in the non-numeric
grouping columns the split succeeds (value check permitting), even when the
numeric grouping columns contain NaN that the forwarded options tolerate —
numeric grouping columns are validated only through the forwarded options
while non-numeric ones are only scanned for missing values. -/
theorem c4_group_missing_asymmetry (df : Frame) (ls : List String) (nm : String)
    (mvc : Nat) (cX : Bool) (kw : CheckOpts) (xg : Frame) (vdt : Dtype)
    (xv : List (List Val))
    (hshape : checkArrayObj (⟨false, mvc, 1⟩ : CheckOpts) (.frame df) = .ok ())
    (hpart : partitionGV (.frame df) (.byLabel ls) = .ok (xg, vdt, xv))
    (hnum : numericGroupCheck kw xg = .ok ()) :
    ((xg.cols.filter (fun c => !c.dtype.isNumber)).any
        (fun c => c.vals.any Val.isNull) = true →
      splitGroupsAndValues (.frame df) (.byLabel ls) nm mvc cX kw
        = .error (.valueError groupNaNMsg)) ∧
    ((xg.cols.filter (fun c => !c.dtype.isNumber)).any
        (fun c => c.vals.any Val.isNull) = false →
      (cX = true → checkArrayRaw kw vdt xv = .ok ()) →
      splitGroupsAndValues (.frame df) (.byLabel ls) nm mvc cX kw
        = .ok (xg.resetIndex, xv)) := by
  constructor
  · intro hnull
    have hg := checkGroupingColumns_nan kw xg hnum hnull
    simp [splitGroupsAndValues, dataFormatChecks_frame, hshape, hpart, hg]
  · intro hnull hvc
    have hg := checkGroupingColumns_ok kw xg hnum hnull
    cases hcx : cX with
    | false => simp [splitGroupsAndValues, dataFormatChecks_frame, hshape, hpart, hg, hcx]
    | true =>
      have hv := hvc hcx
      simp [splitGroupsAndValues, dataFormatChecks_frame, hshape, hpart, hg, hv, hcx]

/-- Claim C4 (witness): with finiteness checking disabled in the forwarded
options, a numeric grouping column holding NaN passes while a None in the
non-numeric grouping column makes the split fail with the missing-value
error; replacing that None by a string makes the same split succeed even
though the numeric grouping NaN is still present. -/
theorem c4_group_missing_witness :
    splitGroupsAndValues
      (.frame { index := [5],
                cols := [{ name := "g1", dtype := Dtype.float64, vals := [Val.nan] },
                         { name := "g2", dtype := Dtype.obj, vals := [Val.null] },
                         { name := "v", dtype := Dtype.float64, vals := [Val.num 1] }] })
      (.byLabel ["g1", "g2"]) "m" 1 true (⟨false, 1, 1⟩ : CheckOpts)
      = .error (.valueError groupNaNMsg) ∧
    splitGroupsAndValues
      (.frame { index := [5],
                cols := [{ name := "g1", dtype := Dtype.float64, vals := [Val.nan] },
                         { name := "g2", dtype := Dtype.obj, vals := [Val.str "x"] },
                         { name := "v", dtype := Dtype.float64, vals := [Val.num 1] }] })
      (.byLabel ["g1", "g2"]) "m" 1 true (⟨false, 1, 1⟩ : CheckOpts)
      = .ok ({ index := [0],
               cols := [{ name := "g1", dtype := Dtype.float64, vals := [Val.nan] },
                        { name := "g2", dtype := Dtype.obj, vals := [Val.str "x"] }] },
             [[Val.num 1]]) :=
  ⟨(c4_group_missing_asymmetry
      { index := [5],
        cols := [{ name := "g1", dtype := Dtype.float64, vals := [Val.nan] },
                 { name := "g2", dtype := Dtype.obj, vals := [Val.null] },
                 { name := "v", dtype := Dtype.float64, vals := [Val.num 1] }] }
      ["g1", "g2"] "m" 1 true (⟨false, 1, 1⟩ : CheckOpts)
      { index := [5],
        cols := [{ name := "g1", dtype := Dtype.float64, vals := [Val.nan] },
                 { name := "g2", dtype := Dtype.obj, vals := [Val.null] }] }
      Dtype.float64 [[Val.num 1]] (by decide) (by decide) (by decide)).1 (by decide),
   (c4_group_missing_asymmetry
      { index := [5],
        cols := [{ name := "g1", dtype := Dtype.float64, vals := [Val.nan] },
                 { name := "g2", dtype := Dtype.obj, vals := [Val.str "x"] },
                 { name := "v", dtype := Dtype.float64, vals := [Val.num 1] }] }
      ["g1", "g2"] "m" 1 true (⟨false, 1, 1⟩ : CheckOpts)
      { index := [5],
        cols := [{ name := "g1", dtype := Dtype.float64, vals := [Val.nan] },
                 { name := "g2", dtype := Dtype.obj, vals := [Val.str "x"] }] }
      Dtype.float64 [[Val.num 1]] (by decide) (by decide) (by decide)).2 (by decide)
      (fun _ => by decide)⟩

theorem tsFit_ok_fields (inc exc : Option (List Dtype)) (df : Frame) (s : TSState)
    (h : tsFit (tsInit inc exc) (.pdf df) = (s, .ok ())) :
    s.include_ = inc ∧ s.exclude_ = exc ∧ s.X_dtypes_ = some df.dtypeRecord ∧
    ∃ sel, selectDtypes inc exc df = .ok sel ∧ s.feature_names_ = some sel.colNames := by
  cases hsel : selectDtypes inc exc df with
  | error e => simp [tsFit, tsInit, hsel] at h
  | ok sel =>
    simp only [tsFit, tsInit, hsel] at h
    by_cases hlen : sel.colNames.length = 0
    · rw [if_pos hlen] at h
      simp at h
    · rw [if_neg hlen] at h
      rw [Prod.mk.injEq] at h
      obtain ⟨hs, -⟩ := h
      subst hs
      exact ⟨rfl, rfl, rfl, sel, rfl, rfl⟩

theorem nodup_fst_mem_eq {α β : Type} (l : List (α × β)) (h : (l.map Prod.fst).Nodup)
    (a : α) (b1 b2 : β) (h1 : (a, b1) ∈ l) (h2 : (a, b2) ∈ l) : b1 = b2 := by
  induction l with
  | nil => simp at h1
  | cons p t ih =>
    simp only [List.map_cons, List.nodup_cons] at h
    rcases List.mem_cons.mp h1 with heq1 | hm1
    · rcases List.mem_cons.mp h2 with heq2 | hm2
      · rw [← heq1] at heq2
        injection heq2 with hax hbx
        exact hbx.symm
      · exfalso
        apply h.1
        have hmem : a ∈ t.map Prod.fst := List.mem_map_of_mem Prod.fst hm2
        rw [← heq1]
        exact hmem
    · rcases List.mem_cons.mp h2 with heq2 | hm2
      · exfalso
        apply h.1
        have hmem : a ∈ t.map Prod.fst := List.mem_map_of_mem Prod.fst hm1
        rw [← heq2]
        exact hmem
      · exact ih h.2 hm1 hm2

theorem dtypeRecord_map_fst (df : Frame) :
    df.dtypeRecord.map Prod.fst = df.colNames := by
  unfold Frame.dtypeRecord Frame.colNames
  rw [List.map_map]
  rfl

/-- Claim C6: after a successful fit on T1, transform on a T2 that assigns a
different dtype to some column recorded at fit time fails with the wrapped
dtype-mismatch error, whatever the include and exclude specification — the
comparison covers the whole fit-time dtype record, also columns outside the
final selection. -/
theorem c6_dtype_drift_rejected (inc exc : Option (List Dtype)) (T1 T2 : Frame)
    (s : TSState) (hnd : T1.colNames.Nodup)
    (hfit : tsFit (tsInit inc exc) (.pdf T1) = (s, .ok ()))
    (n : String) (d1 d2 : Dtype)
    (h1 : (n, d1) ∈ T1.dtypeRecord) (h2 : (n, d2) ∈ T2.dtypeRecord) (hne : d1 ≠ d2) :
    tsTransform s (.pdf T2) = .error (.valueError dtypeMismatchMsg) := by
  obtain ⟨hinc, hexc, hdt, sel, hsel, hfn⟩ := tsFit_ok_fields inc exc T1 s hfit
  have hrec : T1.dtypeRecord ≠ T2.dtypeRecord := by
    intro he
    have hnd1 : (T1.dtypeRecord.map Prod.fst).Nodup := by
      rw [dtypeRecord_map_fst]
      exact hnd
    have h1' : (n, d1) ∈ T2.dtypeRecord := he ▸ h1
    have hnd2 : (T2.dtypeRecord.map Prod.fst).Nodup := he ▸ hnd1
    exact hne (nodup_fst_mem_eq T2.dtypeRecord hnd2 n d1 d2 h1' h2)
  simp only [tsTransform, hdt, hfn]
  show (match dtypesOf (.pdf T2) with
    | .error e => Except.error e
    | .ok cur =>
      if T1.dtypeRecord ≠ cur then Except.error (.valueError dtypeMismatchMsg)
      else
        match TIn.pdf T2 with
        | .npArr _ _ => Except.error (.typeError notDataFrameMsg)
        | .pdf df => selectDtypes s.include_ s.exclude_ df) = _
  show (if T1.dtypeRecord ≠ T2.dtypeRecord then Except.error (.valueError dtypeMismatchMsg)
    else selectDtypes s.include_ s.exclude_ T2) = _
  rw [if_pos hrec]

/-- Claim C6 (witness): fit records column b of T1 as object dtype although
only the integer column a is selected; transform on a T2 where b became a
float column fails with the dtype-mismatch error. -/
theorem c6_dtype_drift_witness :
    tsTransform
      (tsFit (tsInit (some [Dtype.int64]) none)
        (.pdf { index := [0],
                cols := [{ name := "a", dtype := Dtype.int64, vals := [Val.num 1] },
                         { name := "b", dtype := Dtype.obj, vals := [Val.str "x"] }] })).1
      (.pdf { index := [0],
              cols := [{ name := "a", dtype := Dtype.int64, vals := [Val.num 1] },
                       { name := "b", dtype := Dtype.float64, vals := [Val.num 2] }] })
      = .error (.valueError dtypeMismatchMsg) :=
  c6_dtype_drift_rejected (some [Dtype.int64]) none
    { index := [0],
      cols := [{ name := "a", dtype := Dtype.int64, vals := [Val.num 1] },
               { name := "b", dtype := Dtype.obj, vals := [Val.str "x"] }] }
    { index := [0],
      cols := [{ name := "a", dtype := Dtype.int64, vals := [Val.num 1] },
               { name := "b", dtype := Dtype.float64, vals := [Val.num 2] }] }
    (tsFit (tsInit (some [Dtype.int64]) none)
      (.pdf { index := [0],
              cols := [{ name := "a", dtype := Dtype.int64, vals := [Val.num 1] },
                       { name := "b", dtype := Dtype.obj, vals := [Val.str "x"] }] })).1
    (by decide) (by decide) "b" Dtype.obj Dtype.float64 (by decide) (by decide) (by decide)

theorem filter_names_of_record_eq (p : Dtype → Bool) :
    ∀ (c1 c2 : List Col),
      c1.map (fun c => (c.name, c.dtype)) = c2.map (fun c => (c.name, c.dtype)) →
      (c1.filter (fun c => p c.dtype)).map Col.name
        = (c2.filter (fun c => p c.dtype)).map Col.name := by
  intro c1
  induction c1 with
  | nil =>
    intro c2 h
    cases c2 with
    | nil => rfl
    | cons b t2 => simp at h
  | cons a t ih =>
    intro c2 h
    cases c2 with
    | nil => simp at h
    | cons b t2 =>
      simp only [List.map_cons, List.cons.injEq, Prod.mk.injEq] at h
      obtain ⟨⟨hn, hd⟩, ht⟩ := h
      rw [List.filter_cons, List.filter_cons, ← hd]
      by_cases hp : p a.dtype = true
      · rw [if_pos hp, if_pos hp]
        simp only [List.map_cons]
        rw [hn, ih t2 ht]
      · rw [if_neg hp, if_neg hp]
        exact ih t2 ht

theorem selectDtypes_ok_record_eq (inc exc : Option (List Dtype)) (T1 T2 : Frame)
    (h : T1.dtypeRecord = T2.dtypeRecord) (s1 s2 : Frame)
    (h1 : selectDtypes inc exc T1 = .ok s1) (h2 : selectDtypes inc exc T2 = .ok s2) :
    s1.colNames = s2.colNames := by
  unfold selectDtypes at h1 h2
  by_cases hno : (inc.isNone && exc.isNone) = true
  · rw [if_pos hno] at h1
    exact absurd h1 (by simp)
  · rw [if_neg hno] at h1
    rw [if_neg hno] at h2
    by_cases hov : dtypeOverlap inc exc = true
    · rw [if_pos hov] at h1
      exact absurd h1 (by simp)
    · rw [if_neg hov] at h1
      rw [if_neg hov] at h2
      have hs1 : s1 = ⟨T1.index, T1.cols.filter (fun c => dtypeKeep inc exc c.dtype)⟩ := by
        injection h1 with h1x
        exact h1x.symm
      have hs2 : s2 = ⟨T2.index, T2.cols.filter (fun c => dtypeKeep inc exc c.dtype)⟩ := by
        injection h2 with h2x
        exact h2x.symm
      rw [hs1, hs2]
      show (T1.cols.filter (fun c => dtypeKeep inc exc c.dtype)).map Col.name
        = (T2.cols.filter (fun c => dtypeKeep inc exc c.dtype)).map Col.name
      exact filter_names_of_record_eq (dtypeKeep inc exc) T1.cols T2.cols h

theorem transform_ok_selection_names (inc exc : Option (List Dtype)) (T1 T2 : Frame)
    (s : TSState) (out : Frame)
    (hfit : tsFit (tsInit inc exc) (.pdf T1) = (s, .ok ()))
    (htr : tsTransform s (.pdf T2) = .ok out) :
    s.feature_names_ = some out.colNames := by
  obtain ⟨hinc, hexc, hdt, sel, hsel, hfn⟩ := tsFit_ok_fields inc exc T1 s hfit
  simp only [tsTransform, hdt, hfn, dtypesOf] at htr
  by_cases hrec : T1.dtypeRecord = T2.dtypeRecord
  · rw [if_neg (by simp [hrec] : ¬ (T1.dtypeRecord ≠ T2.dtypeRecord))] at htr
    rw [hinc, hexc] at htr
    have hnames := selectDtypes_ok_record_eq inc exc T1 T2 hrec sel out hsel htr
    rw [hfn, hnames]
  · rw [if_pos hrec] at htr
    exact absurd htr (by simp)

/-- Claim C7 (amended): for every transform input accepted by a fitted
PandasTypeSelector, recomputing the type-based selection on the transform
input yields exactly the fitted feature names: the whole-record dtype
comparison forces the transform input to carry the fit-time dtype record, so
recomputation and replaying the fitted column list coincide. -/
theorem c7_recompute_equals_fitted (inc exc : Option (List Dtype)) (T1 T2 : Frame)
    (s : TSState) (out : Frame)
    (hfit : tsFit (tsInit inc exc) (.pdf T1) = (s, .ok ()))
    (htr : tsTransform s (.pdf T2) = .ok out) :
    s.feature_names_ = some out.colNames :=
  transform_ok_selection_names inc exc T1 T2 s out hfit htr

/-- Claim C7 (counterexample to the claimed existence): there is no fit input
and accepted transform input for which the transform output columns differ
from the fitted feature names. -/
theorem c7_recompute_differs_refuted :
    (∃ (inc exc : Option (List Dtype)) (T1 T2 : Frame) (s : TSState) (out : Frame),
      tsFit (tsInit inc exc) (.pdf T1) = (s, .ok ()) ∧
      tsTransform s (.pdf T2) = .ok out ∧
      s.feature_names_ ≠ some out.colNames) = False := by
  apply eq_false
  rintro ⟨inc, exc, T1, T2, s, out, hfit, htr, hne⟩
  exact hne (transform_ok_selection_names inc exc T1 T2 s out hfit htr)

/-- Claim C7 (witness): on a concrete fitted selector, an accepted transform
input with the same dtype record but other values and index yields exactly
the fitted feature names. -/
theorem c7_recompute_witness :
    (tsFit (tsInit (some [Dtype.int64]) none)
      (.pdf (⟨[0], [⟨"a", Dtype.int64, [Val.num 1]⟩]⟩ : Frame))).1.feature_names_
      = some (Frame.colNames (⟨[7], [⟨"a", Dtype.int64, [Val.num 9]⟩]⟩ : Frame)) :=
  c7_recompute_equals_fitted (some [Dtype.int64]) none
    (⟨[0], [⟨"a", Dtype.int64, [Val.num 1]⟩]⟩ : Frame)
    (⟨[7], [⟨"a", Dtype.int64, [Val.num 9]⟩]⟩ : Frame)
    (tsFit (tsInit (some [Dtype.int64]) none)
      (.pdf (⟨[0], [⟨"a", Dtype.int64, [Val.num 1]⟩]⟩ : Frame))).1
    (⟨[7], [⟨"a", Dtype.int64, [Val.num 9]⟩]⟩ : Frame)
    (by decide) (by decide)

theorem checkGroupingColumns_ok_inv (kw : CheckOpts) (Xg out : Frame)
    (h : checkGroupingColumns kw Xg = .ok out) : out = Xg.resetIndex := by
  unfold checkGroupingColumns at h
  split at h
  · exact absurd h (by simp)
  · split at h
    · exact absurd h (by simp)
    · injection h with h1
      exact h1.symm

theorem split_ok_inv (X : PyObj) (G : Groups) (nm : String) (mvc : Nat) (cX : Bool)
    (kw : CheckOpts) (Xg : Frame) (Xv : List (List Val))
    (h : splitGroupsAndValues X G nm mvc cX kw = .ok (Xg, Xv)) :
    ∃ g vdt, partitionGV X G = .ok (g, vdt, Xv) ∧ Xg = g.resetIndex := by
  unfold splitGroupsAndValues at h
  split at h
  · exact absurd h (by simp)
  · split at h
    · exact absurd h (by simp)
    · split at h
      · exact absurd h (by simp)
      · rename_i g vdt xv hpart
        split at h
        · exact absurd h (by simp)
        · rename_i xg2 hgc
          have hout := checkGroupingColumns_ok_inv kw g xg2 hgc
          split at h
          · split at h
            · exact absurd h (by simp)
            · injection h with h1
              injection h1 with hXg hXv
              refine ⟨g, vdt, ?_, ?_⟩
              · rw [← hXv]
                exact hpart
              · rw [← hXg]
                exact hout
          · injection h with h1
            injection h1 with hXg hXv
            refine ⟨g, vdt, ?_, ?_⟩
            · rw [← hXv]
              exact hpart
            · rw [← hXg]
              exact hout

theorem partitionGV_frame_inv (df : Frame) (ls : List String) (g : Frame) (vdt : Dtype)
    (xv : List (List Val))
    (h : partitionGV (.frame df) (.byLabel ls) = .ok (g, vdt, xv)) :
    (∀ l ∈ ls, l ∈ df.colNames) ∧
    g = ⟨df.index, ls.filterMap (fun l => df.cols.find? (fun c => c.name == l))⟩ ∧
    xv = Frame.toRows ⟨df.index, df.cols.filter (fun c => !(ls.contains c.name))⟩ := by
  by_cases hall : ls.all (fun l => df.colNames.contains l) = true
  · have hloc : df.locCols ls
        = .ok ⟨df.index, ls.filterMap (fun l => df.cols.find? (fun c => c.name == l))⟩ := by
      unfold Frame.locCols
      rw [if_pos hall]
    have hdrop : df.dropCols ls
        = .ok ⟨df.index, df.cols.filter (fun c => !(ls.contains c.name))⟩ := by
      unfold Frame.dropCols
      rw [if_pos hall]
    simp only [partitionGV] at h
    rw [hloc, hdrop] at h
    have h' : (Except.ok
        (⟨df.index, ls.filterMap (fun l => df.cols.find? (fun c => c.name == l))⟩,
         npResultType ((df.cols.filter (fun c => !(ls.contains c.name))).map Col.dtype),
         Frame.toRows ⟨df.index, df.cols.filter (fun c => !(ls.contains c.name))⟩) :
        Except PyErr (Frame × Dtype × List (List Val))) = .ok (g, vdt, xv) := h
    injection h' with h2
    injection h2 with hg hrest
    injection hrest with hvdt hxv
    refine ⟨?_, hg.symm, hxv.symm⟩
    intro l hl
    exact (contains_eq_true_iff _ _).mp (List.all_eq_true.mp hall l hl)
  · simp only [partitionGV] at h
    unfold Frame.locCols Frame.dropCols at h
    rw [if_neg hall, if_neg hall] at h
    have h' : (Except.error (PyErr.valueError couldNotDropMsg) :
        Except PyErr (Frame × Dtype × List (List Val))) = .ok (g, vdt, xv) := h
    exact absurd h' (by simp)

theorem partitionGV_arr_inv (dt : Dtype) (rows : List (List Val)) (ps : List Nat)
    (g : Frame) (vdt : Dtype) (xv : List (List Val))
    (h : partitionGV (.arr dt rows) (.byPos ps) = .ok (g, vdt, xv)) :
    (∀ p ∈ ps, p < (rows.headD []).length) ∧ g = arrGroupFrame dt rows ps ∧
    xv = npDeleteCols rows ps := by
  simp only [partitionGV] at h
  by_cases hall : ps.all (fun p => decide (p < (rows.headD []).length)) = true
  · rw [if_pos hall] at h
    injection h with h2
    injection h2 with hg hrest
    injection hrest with hvdt hxv
    refine ⟨?_, hg.symm, hxv.symm⟩
    intro p hp
    exact of_decide_eq_true (List.all_eq_true.mp hall p hp)
  · rw [if_neg hall] at h
    exact absurd h (by simp)

/-- Claim C3: whenever the split succeeds, the grouping frame carries a fresh
contiguous 0-based row index whatever the original index was and keeps the
row count of the input, and every row of the value matrix has exactly the
total column count minus the group column count: by label for a labeled
table, by position for a raw rectangular array. -/
theorem c3_split_shapes (nm : String) (mvc : Nat) (cX : Bool) (kw : CheckOpts) :
    (∀ (df : Frame) (ls : List String) (Xg : Frame) (Xv : List (List Val)),
      df.colNames.Nodup → ls.Nodup →
      splitGroupsAndValues (.frame df) (.byLabel ls) nm mvc cX kw = .ok (Xg, Xv) →
      Xg.index = (List.range df.nrows).map Int.ofNat ∧ Xg.nrows = df.nrows ∧
      ∀ r ∈ Xv, r.length = df.cols.length - ls.length) ∧
    (∀ (dt : Dtype) (rows : List (List Val)) (ps : List Nat) (n : Nat)
        (Xg : Frame) (Xv : List (List Val)),
      ps.Nodup → (∀ r ∈ rows, r.length = n) →
      splitGroupsAndValues (.arr dt rows) (.byPos ps) nm mvc cX kw = .ok (Xg, Xv) →
      Xg.index = (List.range rows.length).map Int.ofNat ∧ Xg.nrows = rows.length ∧
      ∀ r ∈ Xv, r.length = n - ps.length) := by
  constructor
  · intro df ls Xg Xv hnd hlsnd hsplit
    obtain ⟨g, vdt, hpart, hXg⟩ := split_ok_inv _ _ _ _ _ _ _ _ hsplit
    obtain ⟨hsub, hg, hxv⟩ := partitionGV_frame_inv df ls g vdt Xv hpart
    subst hg
    refine ⟨?_, ?_, ?_⟩
    · rw [hXg]
      rfl
    · rw [hXg]
      show ((List.range df.index.length).map Int.ofNat).length = df.nrows
      rw [List.length_map, List.length_range]
      rfl
    · intro r hr
      rw [hxv] at hr
      have hlen := toRows_row_length _ r hr
      rw [hlen]
      show (df.cols.filter (fun c => !(ls.contains c.name))).length
        = df.cols.length - ls.length
      exact names_filter_length df.cols ls hnd hlsnd hsub
  · intro dt rows ps n Xg Xv hnd hrect hsplit
    obtain ⟨g, vdt, hpart, hXg⟩ := split_ok_inv _ _ _ _ _ _ _ _ hsplit
    obtain ⟨hlt, hg, hxv⟩ := partitionGV_arr_inv dt rows ps g vdt Xv hpart
    subst hg
    refine ⟨?_, ?_, ?_⟩
    · rw [hXg]
      show (List.range (Frame.nrows (arrGroupFrame dt rows ps))).map Int.ofNat = _
      have : Frame.nrows (arrGroupFrame dt rows ps) = rows.length := by
        unfold arrGroupFrame Frame.nrows
        rw [List.length_map, List.length_range]
      rw [this]
    · rw [hXg]
      show ((List.range (Frame.nrows (arrGroupFrame dt rows ps))).map Int.ofNat).length
        = rows.length
      rw [List.length_map, List.length_range]
      unfold arrGroupFrame Frame.nrows
      rw [List.length_map, List.length_range]
    · intro r hr
      rw [hxv] at hr
      unfold npDeleteCols at hr
      obtain ⟨row, hrow, rfl⟩ := List.mem_map.mp hr
      have hn : row.length = n := hrect row hrow
      have hne : rows ≠ [] := by
        intro he
        rw [he] at hrow
        exact absurd hrow (List.not_mem_nil row)
      have hhead : (rows.headD []).length = n := by
        cases rows with
        | nil => exact absurd rfl hne
        | cons r0 t => exact hrect r0 (List.mem_cons_self r0 t)
      have hlt2 : ∀ p ∈ ps, p < row.length := by
        intro p hp
        rw [hn, ← hhead]
        exact hlt p hp
      rw [enum_filter_length ps row hnd hlt2, hn]

/-- Claim C3 (witness): a two-row labeled table with the non-contiguous
index 7, 3 and one group column splits into a grouping frame indexed 0, 1
with row count two, and every value row has one entry (two columns minus one
group column). -/
theorem c3_split_shapes_witness :
    (⟨[(0 : Int), 1], [⟨"g", Dtype.obj, [Val.str "a", Val.str "b"]⟩]⟩ : Frame).index
      = (List.range (⟨[(7 : Int), 3], [⟨"g", Dtype.obj, [Val.str "a", Val.str "b"]⟩, ⟨"v", Dtype.float64, [Val.num 1, Val.num 2]⟩]⟩ : Frame).nrows).map Int.ofNat ∧
    (⟨[(0 : Int), 1], [⟨"g", Dtype.obj, [Val.str "a", Val.str "b"]⟩]⟩ : Frame).nrows
      = (⟨[(7 : Int), 3], [⟨"g", Dtype.obj, [Val.str "a", Val.str "b"]⟩, ⟨"v", Dtype.float64, [Val.num 1, Val.num 2]⟩]⟩ : Frame).nrows ∧
    ∀ r ∈ [[Val.num 1], [Val.num 2]],
      r.length = (⟨[(7 : Int), 3], [⟨"g", Dtype.obj, [Val.str "a", Val.str "b"]⟩, ⟨"v", Dtype.float64, [Val.num 1, Val.num 2]⟩]⟩ : Frame).cols.length - (["g"]).length :=
  (c3_split_shapes "m" 1 true defaultCheckOpts).1
    (⟨[(7 : Int), 3], [⟨"g", Dtype.obj, [Val.str "a", Val.str "b"]⟩, ⟨"v", Dtype.float64, [Val.num 1, Val.num 2]⟩]⟩ : Frame)
    ["g"]
    (⟨[(0 : Int), 1], [⟨"g", Dtype.obj, [Val.str "a", Val.str "b"]⟩]⟩ : Frame)
    [[Val.num 1], [Val.num 2]]
    (by decide) (by decide) (by decide)
